import Mathlib

/-!
Verification of the `fetch_url` web-fetch tool
(`src/llm_tools_web_fetch.py`).

The Python operation is embedded shallowly:

* Python strings are Lean `String`; `str.strip`, `str.startswith`,
  `str.lower` and the substring test `in` are re-implemented on the
  character lists (`pyStrip`, `pyStartsWith`, `pyLower`, `pyContains`).
* The external collaborators (trafilatura fetch / extract /
  extract_metadata, the lxml anchor parse, `urllib.parse.urljoin`) are
  black boxes, modelled by a record of functions `Collab`.  A Python call
  that may raise is modelled by the result type `PyResult`, whose `exn`
  constructor carries the exception message `str(e)`; the `try/except`
  block of the source is the corresponding case analysis.
* The JSON text produced by `json.dumps` is determined by the dictionary
  passed to it, so the embedding returns that dictionary itself as the
  record `Envelope`; a key that is absent from the Python dictionary is a
  `none` field.
-/

/-- Python `str.strip()` (both ends) restricted to ASCII-style whitespace:
drop whitespace from the front, then from the back. -/
def pyStrip (s : String) : String :=
  ⟨((s.data.dropWhile Char.isWhitespace).reverse.dropWhile Char.isWhitespace).reverse⟩

/-- Python `s.startswith(p)` for a single prefix. -/
def pyStartsWith (s p : String) : Bool :=
  p.data.isPrefixOf s.data

/-- Python `str.lower()` (ASCII case folding, enough for the error
messages classified by the source). -/
def pyLower (s : String) : String :=
  ⟨s.data.map Char.toLower⟩

/-- `sub` occurs as a contiguous run inside `l`. -/
def charsInfixOf (sub : List Char) : List Char → Bool
  | [] => sub.isPrefixOf []
  | c :: rest => sub.isPrefixOf (c :: rest) || charsInfixOf sub rest

/-- Python substring test `sub in s`. -/
def pyContains (s sub : String) : Bool :=
  charsInfixOf sub.data s.data

/-- An `<a href=...>` element as seen by the source:
`href` is the raw attribute value, `text` the `text_content()`. -/
structure Anchor where
  href : String
  text : String
deriving DecidableEq

/-- One entry of the link list built by the source. -/
structure Link where
  url : String
  text : String
deriving DecidableEq

/-- The skip test of the source (line 86): the trimmed href is dropped if
it is empty or begins with one of the excluded prefixes. -/
def skipHref (href : String) : Bool :=
  href.isEmpty || pyStartsWith href "#" || pyStartsWith href "javascript:" ||
    pyStartsWith href "mailto:" || pyStartsWith href "tel:" || pyStartsWith href "data:"

/-- The link-extraction loop of the source (lines 81 to 94).  `join` is
`urljoin url` with the request URL as base, `seen` the set of resolved
URLs already emitted (a list, queried by membership only). -/
def extractLinksGo (join : String → String) : List Anchor → List String → List Link
  | [], _ => []
  | a :: rest, seen =>
    if skipHref (pyStrip a.href) then
      extractLinksGo join rest seen
    else
      if seen.contains (join (pyStrip a.href)) then
        extractLinksGo join rest seen
      else
        { url := join (pyStrip a.href), text := pyStrip a.text } ::
          extractLinksGo join rest (join (pyStrip a.href) :: seen)

/-- Link extraction as run by the source: the loop started with an empty
`seen` set and an empty accumulator. -/
def extractLinksPy (join : String → String) (anchors : List Anchor) : List Link :=
  extractLinksGo join anchors []

/-- The anchors that survive the skip test, already resolved:
the input of the deduplication step. -/
def resolvedKept (join : String → String) (anchors : List Anchor) : List Link :=
  (anchors.filter (fun a => !skipHref (pyStrip a.href))).map
    (fun a => { url := join (pyStrip a.href), text := pyStrip a.text })

/-- First-occurrence deduplication by resolved URL, stated the way the
spec words it: keep each link whose URL has not appeared before, in order
of first appearance.  Used as the specification side of the refinement
claim about the loop `extractLinksGo`. -/
def dedupByUrl : List Link → List Link
  | [] => []
  | l :: ls => l :: dedupByUrl (ls.filter (fun x => x.url ≠ l.url))
termination_by ls => ls.length
decreasing_by
  simp only [List.length_cons]
  exact Nat.lt_succ_of_le (List.length_filter_le _ _)

/-- `re.sub(r"\n{3,}", "\n\n", content)` (line 124), single pass:
`k` counts the pending run of newlines; a run is flushed as
`min k 2` newlines. -/
def collapseGo : List Char → Nat → List Char
  | [], k => List.replicate (min k 2) '\n'
  | c :: rest, k =>
    if c = '\n' then collapseGo rest (k + 1)
    else List.replicate (min k 2) '\n' ++ c :: collapseGo rest 0

/-- Newline normalisation of the source: every run of 3 or more
consecutive newlines becomes exactly two. -/
def collapseNewlines (s : String) : String :=
  ⟨collapseGo s.data 0⟩

/-- Detects a run of 3 or more consecutive newline characters. -/
def hasTripleNewline : List Char → Bool
  | [] => false
  | [_] => false
  | [_, _] => false
  | c1 :: c2 :: c3 :: rest =>
      (c1 = '\n' && c2 = '\n' && c3 = '\n') || hasTripleNewline (c2 :: c3 :: rest)

/-- Result of a call into a Python collaborator: a value, or a raised
exception carrying its message `str(e)`. -/
inductive PyResult (α : Type) where
  | ok : α → PyResult α
  | exn : String → PyResult α
deriving DecidableEq

/-- The page metadata object returned by `trafilatura.extract_metadata`:
each attribute read by the source, `none` standing for Python `None`. -/
structure Meta where
  sitename : Option String
  title : Option String
  author : Option String
  date : Option String
  description : Option String
deriving DecidableEq

/-- Python truthiness of an optional string attribute
(`if meta.sitename:` is true iff the value is neither None nor empty). -/
def strTruthy : Option String → Bool
  | none => false
  | some s => !s.isEmpty

/-- The keyword options the source passes to `trafilatura.extract`
(lines 104 to 113). -/
structure ExtractOptions where
  output_format : String
  include_links : Bool
  include_images : Bool
  include_tables : Bool
  include_formatting : Bool
  favor_recall : Bool
  url : String
deriving DecidableEq

/-- The external collaborators of the source, as black-box functions.
`fetch` is `trafilatura.fetch_url` (with the module-level user-agent
config already applied), `parseAnchors` is
`lxml_html.fromstring(downloaded).xpath(..a with href..)` returning the
anchor elements in document order, `extract` and `extract_metadata` are
the trafilatura calls, `urljoin` is `urllib.parse.urljoin` (assumed not
to raise).  The raw downloaded document is its text. -/
structure Collab where
  fetch : String → PyResult (Option String)
  parseAnchors : String → PyResult (List Anchor)
  extract : String → ExtractOptions → PyResult (Option String)
  extract_metadata : String → PyResult (Option Meta)
  urljoin : String → String → String

/-- The dictionary handed to `json.dumps`: a `none` field is a key absent
from the dictionary, `metadata` is the ordered list of key-value pairs
inserted. -/
structure Envelope where
  url : String
  error : Option String
  content : Option String
  metadata : Option (List (String × String))
  links : Option (List Link)
  link_count : Option Nat
deriving DecidableEq

/-- The fixed extraction policy of the source: markdown output, tables
and formatting kept, recall favoured, caller-controlled links and
images, the request URL passed through. -/
def extractOpts (include_links include_images : Bool) (u : String) : ExtractOptions :=
  { output_format := "markdown", include_links := include_links,
    include_images := include_images, include_tables := true,
    include_formatting := true, favor_recall := true, url := u }

/-- The error envelope the source builds at every failure return:
non-null error, empty metadata and content, no links. -/
def errEnv (url msg : String) : Envelope :=
  { url := url, error := some msg, content := some "", metadata := some [],
    links := none, link_count := none }

/-- The exception-message classifier of the except block
(lines 149 to 164), producing the final error string. -/
def classifyExn (url msg : String) : String :=
  if pyContains msg "ConnectionError" || pyContains (pyLower msg) "connection" then
    "Connection error: unable to reach " ++ url
  else if pyContains msg "Timeout" || pyContains (pyLower msg) "timeout" then
    "Request timed out for " ++ url
  else if pyContains msg "SSL" || pyContains (pyLower msg) "certificate" then
    "SSL/TLS certificate error for " ++ url
  else if pyContains msg "404" then
    "Page not found (404) at " ++ url
  else if pyContains msg "403" then
    "Access forbidden (403) at " ++ url
  else if pyContains msg "500" || pyContains msg "502" || pyContains msg "503" then
    "Server error at " ++ url
  else msg

/-- The metadata dictionary built at lines 127 to 140: each of the five
attributes is copied iff truthy, in source order. -/
def buildMetadata : Option Meta → List (String × String)
  | none => []
  | some m =>
    (if strTruthy m.sitename then [("sitename", m.sitename.getD "")] else []) ++
    (if strTruthy m.title then [("title", m.title.getD "")] else []) ++
    (if strTruthy m.author then [("author", m.author.getD "")] else []) ++
    (if strTruthy m.date then [("date", m.date.getD "")] else []) ++
    (if strTruthy m.description then [("description", m.description.getD "")] else [])

/-- The content branch, lines 103 to 147: extract, check emptiness,
collapse newlines, optionally extract metadata, assemble the envelope.
An exception from a collaborator falls through to the except block. -/
def contentBranch (c : Collab) (u downloaded : String)
    (include_links include_images include_metadata : Bool) : Envelope :=
  match c.extract downloaded (extractOpts include_links include_images u) with
  | .exn m => errEnv u (classifyExn u m)
  | .ok contentOpt =>
    match contentOpt with
    | none => errEnv u "No extractable content found on page"
    | some content =>
      if pyStrip content = "" then
        errEnv u "No extractable content found on page"
      else
        if include_metadata then
          match c.extract_metadata downloaded with
          | .exn m => errEnv u (classifyExn u m)
          | .ok meta =>
            { url := u, metadata := some (buildMetadata meta),
              content := some (collapseNewlines content), error := none,
              links := none, link_count := none }
        else
          { url := u, metadata := some [],
            content := some (collapseNewlines content), error := none,
            links := none, link_count := none }

/-- The links branch, lines 79 to 101: parse the anchors, run the
extraction loop, assemble the links envelope. -/
def linksBranch (c : Collab) (u downloaded : String) : Envelope :=
  match c.parseAnchors downloaded with
  | .exn m => errEnv u (classifyExn u m)
  | .ok anchors =>
    { url := u, links := some (extractLinksPy (c.urljoin u) anchors),
      link_count := some (extractLinksPy (c.urljoin u) anchors).length,
      error := none, content := none, metadata := none }

/-- The `fetch_url` operation of the source (lines 21 to 171), with the
collaborators passed explicitly.  Validation happens before the try
block; every collaborator exception inside it reaches the except block
and is classified, so the function is total. -/
def fetch_url (c : Collab) (url : String)
    (include_links include_images include_metadata extract_links : Bool) : Envelope :=
  if url = "" then
    { url := url, error := some "URL is required", content := some "",
      metadata := some [], links := none, link_count := none }
  else
    if !(pyStartsWith (pyStrip url) "http://" || pyStartsWith (pyStrip url) "https://") then
      errEnv (pyStrip url) "Invalid URL: must start with http:// or https://"
    else
      match c.fetch (pyStrip url) with
      | .exn m => errEnv (pyStrip url) (classifyExn (pyStrip url) m)
      | .ok none =>
        errEnv (pyStrip url) "Failed to fetch URL: page not accessible or returned empty content"
      | .ok (some downloaded) =>
        if extract_links then
          linksBranch c (pyStrip url) downloaded
        else
          contentBranch c (pyStrip url) downloaded include_links include_images include_metadata

/-- One bullet of the trailing link section, formatted
`- [text-or-url](url)`, the text falling back to the URL itself when the
anchor text is empty. -/
def linkBullet (l : Link) : String :=
  "- [" ++ (if l.text = "" then l.url else l.text) ++ "](" ++ l.url ++ ")"

/-- The trailing `## Page Links` markdown section: the heading followed
by one bullet line per link. -/
def pageLinksSection (links : List Link) : String :=
  "\n\n## Page Links\n\n" ++ String.intercalate "\n" (links.map linkBullet)

/-- Modelled from the spec: the content branch of the second, merged
tool definition (spec section 9 records a dual registration whose other
definition merges the link list into the content; that definition is not
under src).  Per spec sections 2 and 4.4: extract readable content,
collapse newline runs, extract the page links with the shared routine of
4.3, append them as a trailing `## Page Links` section, then extract
metadata as in the primary definition. -/
def mergedContentBranch (c : Collab) (u downloaded : String)
    (include_links include_images include_metadata : Bool) : Envelope :=
  match c.extract downloaded (extractOpts include_links include_images u) with
  | .exn m => errEnv u (classifyExn u m)
  | .ok contentOpt =>
    match contentOpt with
    | none => errEnv u "No extractable content found on page"
    | some content =>
      if pyStrip content = "" then
        errEnv u "No extractable content found on page"
      else
        match c.parseAnchors downloaded with
        | .exn m => errEnv u (classifyExn u m)
        | .ok anchors =>
          if include_metadata then
            match c.extract_metadata downloaded with
            | .exn m => errEnv u (classifyExn u m)
            | .ok meta =>
              { url := u, metadata := some (buildMetadata meta),
                content := some (collapseNewlines content ++
                  pageLinksSection (extractLinksPy (c.urljoin u) anchors)),
                error := none, links := none, link_count := none }
          else
            { url := u, metadata := some [],
              content := some (collapseNewlines content ++
                pageLinksSection (extractLinksPy (c.urljoin u) anchors)),
              error := none, links := none, link_count := none }

/-- Modelled from the spec: the second, merged tool definition of the
dual registration (spec section 9), identical to `fetch_url` except that
its links-only flag is named `extract_links_only` and that content mode
appends the `## Page Links` section. -/
def web_fetch (c : Collab) (url : String)
    (include_links include_images include_metadata extract_links_only : Bool) : Envelope :=
  if url = "" then
    { url := url, error := some "URL is required", content := some "",
      metadata := some [], links := none, link_count := none }
  else
    if !(pyStartsWith (pyStrip url) "http://" || pyStartsWith (pyStrip url) "https://") then
      errEnv (pyStrip url) "Invalid URL: must start with http:// or https://"
    else
      match c.fetch (pyStrip url) with
      | .exn m => errEnv (pyStrip url) (classifyExn (pyStrip url) m)
      | .ok none =>
        errEnv (pyStrip url) "Failed to fetch URL: page not accessible or returned empty content"
      | .ok (some downloaded) =>
        if extract_links_only then
          linksBranch c (pyStrip url) downloaded
        else
          mergedContentBranch c (pyStrip url) downloaded include_links include_images include_metadata

/-- The ways one run of the operation can raise an exception with
message `m` inside the try block: from the fetch call, from the anchor
parse (links mode), from the content extraction, or from the metadata
extraction (content mode, after a non-empty extraction). -/
def raisesWith (c : Collab) (u : String) (il ii im el : Bool) (m : String) : Prop :=
  c.fetch u = .exn m ∨
  (∃ d, c.fetch u = .ok (some d) ∧ el = true ∧ c.parseAnchors d = .exn m) ∨
  (∃ d, c.fetch u = .ok (some d) ∧ el = false ∧
    c.extract d (extractOpts il ii u) = .exn m) ∨
  (∃ d raw, c.fetch u = .ok (some d) ∧ el = false ∧
    c.extract d (extractOpts il ii u) = .ok (some raw) ∧ pyStrip raw ≠ "" ∧
    im = true ∧ c.extract_metadata d = .exn m)

/-- A collaborator world whose every call raises with message `msg`:
used to exercise the exception paths on concrete inputs. -/
def collabRaise (msg : String) : Collab :=
  { fetch := fun _ => .exn msg, parseAnchors := fun _ => .exn msg,
    extract := fun _ _ => .exn msg, extract_metadata := fun _ => .exn msg,
    urljoin := fun _ href => href }

/-- A collaborator world whose fetch returns no document. -/
def collabFetchNone : Collab :=
  { fetch := fun _ => .ok none, parseAnchors := fun _ => .ok [],
    extract := fun _ _ => .ok none, extract_metadata := fun _ => .ok none,
    urljoin := fun _ href => href }

/-- A concrete page world: a fetched document with two anchors, a small
markdown extraction with a long newline run, and a sitename in the
metadata. -/
def collabPage : Collab :=
  { fetch := fun _ => .ok (some "<html>page</html>"),
    parseAnchors := fun _ =>
      .ok [{ href := "a.html", text := "First" }, { href := "b.html", text := "" }],
    extract := fun _ _ => .ok (some "Hello world\n\n\n\nBye"),
    extract_metadata := fun _ =>
      .ok (some { sitename := some "Site", title := none, author := none,
                  date := none, description := none }),
    urljoin := fun base href => base ++ "/" ++ href }

/-- A collaborator world whose fetch succeeds but whose anchor parse
raises, as lxml does on an empty or unparsable document. -/
def collabParseRaise : Collab :=
  { fetch := fun _ => .ok (some " "),
    parseAnchors := fun _ => .exn "Document is empty",
    extract := fun _ _ => .ok (some "text"), extract_metadata := fun _ => .ok none,
    urljoin := fun _ href => href }

/-! ## Helper lemmas about the link-extraction loop -/

theorem extractLinksGo_eq_dedup (j : String → String) (as : List Anchor) :
    ∀ seen : List String,
      extractLinksGo j as seen =
        dedupByUrl ((resolvedKept j as).filter (fun l => !seen.contains l.url)) := by
  induction as with
  | nil =>
    intro seen
    simp [extractLinksGo, resolvedKept, dedupByUrl]
  | cons a rest ih =>
    intro seen
    cases hs : skipHref (pyStrip a.href) with
    | true =>
      have hk : resolvedKept j (a :: rest) = resolvedKept j rest := by
        simp [resolvedKept, List.filter_cons, hs]
      rw [hk]
      simpa [extractLinksGo, hs] using ih seen
    | false =>
      have hk : resolvedKept j (a :: rest) =
          { url := j (pyStrip a.href), text := pyStrip a.text } :: resolvedKept j rest := by
        simp [resolvedKept, List.filter_cons, hs]
      rw [hk, List.filter_cons]
      cases hm : seen.contains (j (pyStrip a.href)) with
      | true =>
        have hm2 : j (pyStrip a.href) ∈ seen := by simpa using hm
        simpa [extractLinksGo, hs, hm, hm2] using ih seen
      | false =>
        have hm2 : ¬ j (pyStrip a.href) ∈ seen := by simpa using hm
        simp only [hm, Bool.not_false, if_true]
        rw [dedupByUrl]
        simp only [extractLinksGo, hs, hm, Bool.false_eq_true, if_false]
        congr 1
        rw [ih, List.filter_filter]
        congr 1
        apply List.filter_congr
        intro x hx
        by_cases hxe : x.url = j (pyStrip a.href) <;>
          simp [hxe, List.contains_cons, hm]


theorem extractLinksPy_eq_dedup (j : String → String) (as : List Anchor) :
    extractLinksPy j as = dedupByUrl (resolvedKept j as) := by
  have h := extractLinksGo_eq_dedup j as []
  simpa [extractLinksPy] using h

theorem dedupByUrl_subset : ∀ ls : List Link, ∀ x ∈ dedupByUrl ls, x ∈ ls := by
  intro ls
  induction ls using dedupByUrl.induct with
  | case1 => simp [dedupByUrl]
  | case2 l ls ih =>
    intro x hx
    rw [dedupByUrl] at hx
    rcases List.mem_cons.mp hx with h | h
    · exact h ▸ List.mem_cons_self _ _
    · exact List.mem_cons_of_mem _ (List.mem_of_mem_filter (ih x h))

theorem dedupByUrl_nodup (ls : List Link) : ((dedupByUrl ls).map Link.url).Nodup := by
  induction ls using dedupByUrl.induct with
  | case1 => simp [dedupByUrl]
  | case2 l ls ih =>
    rw [dedupByUrl]
    simp only [List.map_cons, List.nodup_cons]
    refine ⟨?_, ih⟩
    intro hmem
    rcases List.mem_map.mp hmem with ⟨x, hx, hxu⟩
    have hxls := dedupByUrl_subset _ x hx
    have hp := List.of_mem_filter hxls
    simp only [decide_eq_true_eq] at hp
    exact hp hxu

/-! ## Helper lemmas about stripping and newline collapsing -/

theorem mk_eq_empty_iff (l : List Char) : (⟨l⟩ : String) = "" ↔ l = [] := by
  constructor
  · intro h; exact congrArg String.data h
  · intro h; rw [h]

theorem dropWhile_ne_nil_witness {p : Char → Bool} :
    ∀ l : List Char, l.dropWhile p ≠ [] → ∃ c ∈ l, p c = false := by
  intro l
  induction l with
  | nil => intro h; simp [List.dropWhile_nil] at h
  | cons c rest ih =>
    intro h
    rw [List.dropWhile_cons] at h
    cases hc : p c with
    | true =>
      rw [hc] at h
      simp only [if_true] at h
      rcases ih h with ⟨x, hx, hpx⟩
      exact ⟨x, List.mem_cons_of_mem _ hx, hpx⟩
    | false => exact ⟨c, List.mem_cons_self _ _, hc⟩

theorem pyStrip_ne_empty_witness (s : String) (h : pyStrip s ≠ "") :
    ∃ c ∈ s.data, c.isWhitespace = false := by
  unfold pyStrip at h
  have h1 : ((s.data.dropWhile Char.isWhitespace).reverse.dropWhile Char.isWhitespace).reverse
      ≠ [] := fun he => h ((mk_eq_empty_iff _).mpr he)
  have h2 : (s.data.dropWhile Char.isWhitespace).reverse.dropWhile Char.isWhitespace ≠ [] := by
    intro he; rw [he] at h1; exact h1 rfl
  rcases dropWhile_ne_nil_witness _ h2 with ⟨c, hc, hpc⟩
  have hc3 : c ∈ s.data.dropWhile Char.isWhitespace := List.mem_reverse.mp hc
  exact ⟨c, (List.dropWhile_sublist _).subset hc3, hpc⟩

theorem pyStrip_of_all_whitespace (s : String)
    (h : ∀ c ∈ s.data, c.isWhitespace = true) : pyStrip s = "" := by
  unfold pyStrip
  have h1 : s.data.dropWhile Char.isWhitespace = [] := by
    rw [List.dropWhile_eq_nil_iff]
    exact h
  rw [h1]
  rfl

theorem hasTripleNewline_cons_ne (c : Char) (hc : ¬ c = '\n') (t : List Char) :
    hasTripleNewline (c :: t) = hasTripleNewline t := by
  match t with
  | [] => rfl
  | [c2] => rfl
  | c2 :: c3 :: r => simp [hasTripleNewline, hc]

theorem hasTripleNewline_newline_cons (c : Char) (hc : ¬ c = '\n') (t : List Char) :
    hasTripleNewline ('\n' :: c :: t) = hasTripleNewline (c :: t) := by
  match t with
  | [] => rfl
  | c3 :: r => simp [hasTripleNewline, hc]

theorem hasTripleNewline_replicate_prefix (n : Nat) (hn : n ≤ 2) (c : Char)
    (hc : ¬ c = '\n') (t : List Char) :
    hasTripleNewline (List.replicate n '\n' ++ c :: t) = hasTripleNewline (c :: t) := by
  match n, hn with
  | 0, _ => simp
  | 1, _ =>
    simp only [List.replicate, List.cons_append, List.nil_append]
    exact hasTripleNewline_newline_cons c hc t
  | 2, _ =>
    simp only [List.replicate, List.cons_append, List.nil_append]
    rw [show ((('\n' :: '\n' :: c :: t : List Char)) = '\n' :: '\n' :: c :: t) from rfl]
    rw [hasTripleNewline]
    simp only [hc, decide_eq_true_eq, Bool.and_eq_true, decide_eq_false_iff_not]
    rw [hasTripleNewline_newline_cons c hc t]
    simp [hc]

theorem hasTripleNewline_replicate (n : Nat) (hn : n ≤ 2) :
    hasTripleNewline (List.replicate n '\n') = false := by
  match n, hn with
  | 0, _ => rfl
  | 1, _ => rfl
  | 2, _ => rfl

theorem hasTripleNewline_collapseGo (l : List Char) :
    ∀ k, hasTripleNewline (collapseGo l k) = false := by
  induction l with
  | nil =>
    intro k
    exact hasTripleNewline_replicate _ (Nat.min_le_right k 2)
  | cons c rest ih =>
    intro k
    by_cases hc : c = '\n'
    · rw [collapseGo, if_pos hc]
      exact ih (k + 1)
    · rw [collapseGo, if_neg hc,
        hasTripleNewline_replicate_prefix _ (Nat.min_le_right k 2) c hc,
        hasTripleNewline_cons_ne c hc]
      exact ih 0

theorem mem_collapseGo (c : Char) (hc : ¬ c = '\n') :
    ∀ l : List Char, c ∈ l → ∀ k, c ∈ collapseGo l k := by
  intro l
  induction l with
  | nil => intro h; exact absurd h (List.not_mem_nil c)
  | cons x rest ih =>
    intro h k
    by_cases hx : x = '\n'
    · rw [collapseGo, if_pos hx]
      apply ih ?_ (k + 1)
      rcases List.mem_cons.mp h with h1 | h1
      · exact absurd (h1.trans hx) hc
      · exact h1
    · rw [collapseGo, if_neg hx]
      rcases List.mem_cons.mp h with h1 | h1
      · rw [h1]; exact List.mem_append_right _ (List.mem_cons_self _ _)
      · exact List.mem_append_right _ (List.mem_cons_of_mem _ (ih h1 0))

theorem collapseNewlines_ne_empty (s : String) (h : pyStrip s ≠ "") :
    collapseNewlines s ≠ "" := by
  rcases pyStrip_ne_empty_witness s h with ⟨c, hcs, hcw⟩
  have hcn : ¬ c = '\n' := by
    intro he; rw [he] at hcw; exact absurd hcw (by decide)
  have hmem := mem_collapseGo c hcn s.data hcs 0
  intro he
  rw [collapseNewlines] at he
  rw [(mk_eq_empty_iff _).mp he] at hmem
  exact absurd hmem (List.not_mem_nil c)

theorem hasTripleNewline_collapseNewlines (s : String) :
    hasTripleNewline (collapseNewlines s).data = false := by
  rw [collapseNewlines]
  exact hasTripleNewline_collapseGo s.data 0

/-! ## Shape lemmas: every branch of the operation yields one of a fixed
set of envelopes -/

theorem contentBranch_shape (c : Collab) (u d : String) (il ii im : Bool) :
    (∃ msg, contentBranch c u d il ii im = errEnv u msg) ∨
    (∃ raw md, c.extract d (extractOpts il ii u) = .ok (some raw) ∧ pyStrip raw ≠ "" ∧
      contentBranch c u d il ii im =
        { url := u, metadata := some md, content := some (collapseNewlines raw),
          error := none, links := none, link_count := none }) := by
  cases hex : c.extract d (extractOpts il ii u) with
  | exn m =>
    refine Or.inl ⟨classifyExn u m, ?_⟩
    simp [contentBranch, hex]
  | ok o =>
    cases o with
    | none =>
      refine Or.inl ⟨"No extractable content found on page", ?_⟩
      simp [contentBranch, hex]
    | some raw =>
      by_cases hraw : pyStrip raw = ""
      · refine Or.inl ⟨"No extractable content found on page", ?_⟩
        simp [contentBranch, hex, hraw]
      · cases im with
        | false =>
          refine Or.inr ⟨raw, [], rfl, hraw, ?_⟩
          simp [contentBranch, hex, hraw]
        | true =>
          cases hmeta : c.extract_metadata d with
          | exn m =>
            refine Or.inl ⟨classifyExn u m, ?_⟩
            simp [contentBranch, hex, hraw, hmeta]
          | ok meta =>
            refine Or.inr ⟨raw, buildMetadata meta, rfl, hraw, ?_⟩
            simp [contentBranch, hex, hraw, hmeta]

theorem linksBranch_shape (c : Collab) (u d : String) :
    (∃ msg, linksBranch c u d = errEnv u msg) ∨
    (∃ anchors, c.parseAnchors d = .ok anchors ∧
      linksBranch c u d =
        { url := u, links := some (extractLinksPy (c.urljoin u) anchors),
          link_count := some (extractLinksPy (c.urljoin u) anchors).length,
          error := none, content := none, metadata := none }) := by
  cases hpa : c.parseAnchors d with
  | exn m =>
    refine Or.inl ⟨classifyExn u m, ?_⟩
    simp [linksBranch, hpa]
  | ok anchors =>
    refine Or.inr ⟨anchors, rfl, ?_⟩
    simp [linksBranch, hpa]

theorem fetch_url_shape (c : Collab) (url : String) (il ii im el : Bool) :
    (url = "" ∧ fetch_url c url il ii im el =
      { url := url, error := some "URL is required", content := some "",
        metadata := some [], links := none, link_count := none }) ∨
    (∃ msg, fetch_url c url il ii im el = errEnv (pyStrip url) msg) ∨
    (el = true ∧ ∃ d anchors, c.fetch (pyStrip url) = .ok (some d) ∧
      c.parseAnchors d = .ok anchors ∧
      fetch_url c url il ii im el =
        { url := pyStrip url,
          links := some (extractLinksPy (c.urljoin (pyStrip url)) anchors),
          link_count := some (extractLinksPy (c.urljoin (pyStrip url)) anchors).length,
          error := none, content := none, metadata := none }) ∨
    (el = false ∧ ∃ d raw md, c.fetch (pyStrip url) = .ok (some d) ∧
      c.extract d (extractOpts il ii (pyStrip url)) = .ok (some raw) ∧ pyStrip raw ≠ "" ∧
      fetch_url c url il ii im el =
        { url := pyStrip url, metadata := some md,
          content := some (collapseNewlines raw), error := none,
          links := none, link_count := none }) := by
  by_cases hu : url = ""
  · refine Or.inl ⟨hu, ?_⟩
    simp [fetch_url, hu]
  · cases hv : (pyStartsWith (pyStrip url) "http://" || pyStartsWith (pyStrip url) "https://") with
    | false =>
      refine Or.inr (Or.inl ⟨"Invalid URL: must start with http:// or https://", ?_⟩)
      simp [fetch_url, hu, hv]
    | true =>
      cases hf : c.fetch (pyStrip url) with
      | exn m =>
        refine Or.inr (Or.inl ⟨classifyExn (pyStrip url) m, ?_⟩)
        simp [fetch_url, hu, hv, hf]
      | ok o =>
        cases o with
        | none =>
          refine Or.inr (Or.inl
            ⟨"Failed to fetch URL: page not accessible or returned empty content", ?_⟩)
          simp [fetch_url, hu, hv, hf]
        | some d =>
          cases el with
          | true =>
            rcases linksBranch_shape c (pyStrip url) d with ⟨msg, hh⟩ | ⟨anchors, hpa, hh⟩
            · refine Or.inr (Or.inl ⟨msg, ?_⟩)
              simpa [fetch_url, hu, hv, hf] using hh
            · refine Or.inr (Or.inr (Or.inl ⟨rfl, d, anchors, rfl, hpa, ?_⟩))
              simpa [fetch_url, hu, hv, hf] using hh
          | false =>
            rcases contentBranch_shape c (pyStrip url) d il ii im with
              ⟨msg, hh⟩ | ⟨raw, md, hex, hraw, hh⟩
            · refine Or.inr (Or.inl ⟨msg, ?_⟩)
              simpa [fetch_url, hu, hv, hf] using hh
            · refine Or.inr (Or.inr (Or.inr ⟨rfl, d, raw, md, rfl, hex, hraw, ?_⟩))
              simpa [fetch_url, hu, hv, hf] using hh

theorem mergedContentBranch_shape (c : Collab) (u d : String) (il ii im : Bool) :
    (∃ msg, mergedContentBranch c u d il ii im = errEnv u msg) ∨
    (∃ raw anchors md, c.extract d (extractOpts il ii u) = .ok (some raw) ∧
      pyStrip raw ≠ "" ∧ c.parseAnchors d = .ok anchors ∧
      mergedContentBranch c u d il ii im =
        { url := u, metadata := some md,
          content := some (collapseNewlines raw ++
            pageLinksSection (extractLinksPy (c.urljoin u) anchors)),
          error := none, links := none, link_count := none }) := by
  cases hex : c.extract d (extractOpts il ii u) with
  | exn m =>
    exact Or.inl ⟨classifyExn u m, by simp [mergedContentBranch, hex]⟩
  | ok o =>
    cases o with
    | none =>
      exact Or.inl ⟨"No extractable content found on page",
        by simp [mergedContentBranch, hex]⟩
    | some raw =>
      by_cases hraw : pyStrip raw = ""
      · exact Or.inl ⟨"No extractable content found on page",
          by simp [mergedContentBranch, hex, hraw]⟩
      · cases hpa : c.parseAnchors d with
        | exn m =>
          exact Or.inl ⟨classifyExn u m, by simp [mergedContentBranch, hex, hraw, hpa]⟩
        | ok anchors =>
          cases im with
          | false =>
            exact Or.inr ⟨raw, anchors, [], rfl, hraw, rfl,
              by simp [mergedContentBranch, hex, hraw, hpa]⟩
          | true =>
            cases hmeta : c.extract_metadata d with
            | exn m =>
              exact Or.inl ⟨classifyExn u m,
                by simp [mergedContentBranch, hex, hraw, hpa, hmeta]⟩
            | ok meta =>
              exact Or.inr ⟨raw, anchors, buildMetadata meta, rfl, hraw, rfl,
                by simp [mergedContentBranch, hex, hraw, hpa, hmeta]⟩

theorem web_fetch_content_shape (c : Collab) (url : String) (il ii im : Bool) :
    (web_fetch c url il ii im false).error ≠ none ∨
    (∃ d raw anchors md, c.fetch (pyStrip url) = .ok (some d) ∧
      c.extract d (extractOpts il ii (pyStrip url)) = .ok (some raw) ∧
      pyStrip raw ≠ "" ∧ c.parseAnchors d = .ok anchors ∧
      web_fetch c url il ii im false =
        { url := pyStrip url, metadata := some md,
          content := some (collapseNewlines raw ++
            pageLinksSection (extractLinksPy (c.urljoin (pyStrip url)) anchors)),
          error := none, links := none, link_count := none }) := by
  by_cases hu : url = ""
  · exact Or.inl (by simp [web_fetch, hu])
  · cases hv : (pyStartsWith (pyStrip url) "http://" || pyStartsWith (pyStrip url) "https://") with
    | false => exact Or.inl (by simp [web_fetch, hu, hv, errEnv])
    | true =>
      cases hf : c.fetch (pyStrip url) with
      | exn m => exact Or.inl (by simp [web_fetch, hu, hv, hf, errEnv])
      | ok o =>
        cases o with
        | none => exact Or.inl (by simp [web_fetch, hu, hv, hf, errEnv])
        | some d =>
          rcases mergedContentBranch_shape c (pyStrip url) d il ii im with
            ⟨msg, hh⟩ | ⟨raw, anchors, md, hex, hraw, hpa, hh⟩
          · refine Or.inl ?_
            have : web_fetch c url il ii im false = errEnv (pyStrip url) msg := by
              simpa [web_fetch, hu, hv, hf] using hh
            rw [this]
            simp [errEnv]
          · refine Or.inr ⟨d, raw, anchors, md, rfl, hex, hraw, hpa, ?_⟩
            simpa [web_fetch, hu, hv, hf] using hh

/-! ## Claim theorems -/

/-- C2: for every url, every option combination and every collaborator
behaviour (including collaborators that raise), `fetch_url` returns an
envelope — the embedding is a total function, the except block having
converted every collaborator exception — and every failure envelope
(non-null `error`) has empty `content` and `metadata` and carries no
`links` or `link_count`. -/
theorem fetch_url_failure_envelope_empty_fields (c : Collab) (url : String)
    (il ii im el : Bool) (h : (fetch_url c url il ii im el).error ≠ none) :
    (fetch_url c url il ii im el).content = some "" ∧
      (fetch_url c url il ii im el).metadata = some [] ∧
      (fetch_url c url il ii im el).links = none ∧
      (fetch_url c url il ii im el).link_count = none := by
  rcases fetch_url_shape c url il ii im el with
    ⟨hu, he⟩ | ⟨msg, he⟩ | ⟨hel, d, anchors, hf, hpa, he⟩ |
    ⟨hel, d, raw, md, hf, hex, hraw, he⟩
  · rw [he]; exact ⟨rfl, rfl, rfl, rfl⟩
  · rw [he]; exact ⟨rfl, rfl, rfl, rfl⟩
  · rw [he] at h; simp at h
  · rw [he] at h; simp at h

/-- Witness for C2 at a concrete input: a fetch call that raises. -/
theorem fetch_url_failure_envelope_empty_fields_witness :
    (fetch_url (collabRaise "boom") "http://x" true false true false).content = some "" ∧
      (fetch_url (collabRaise "boom") "http://x" true false true false).metadata = some [] ∧
      (fetch_url (collabRaise "boom") "http://x" true false true false).links = none ∧
      (fetch_url (collabRaise "boom") "http://x" true false true false).link_count = none :=
  fetch_url_failure_envelope_empty_fields (collabRaise "boom") "http://x" true false true false
    (by decide)

/-- C3: an empty url, or one whose trimmed form starts with neither
http:// nor https://, is rejected with exactly one of the two fixed
messages, with empty content and metadata, without consulting any
collaborator (the result is identical for any two collaborator worlds)
and — the embedding being total — without raising. -/
theorem fetch_url_invalid_url_rejected (c c2 : Collab) (url : String) (il ii im el : Bool)
    (h : url = "" ∨ (pyStartsWith (pyStrip url) "http://" = false ∧
      pyStartsWith (pyStrip url) "https://" = false)) :
    fetch_url c url il ii im el = fetch_url c2 url il ii im el ∧
      ((fetch_url c url il ii im el).error = some "URL is required" ∨
        (fetch_url c url il ii im el).error =
          some "Invalid URL: must start with http:// or https://") ∧
      (fetch_url c url il ii im el).content = some "" ∧
      (fetch_url c url il ii im el).metadata = some [] := by
  by_cases hu : url = ""
  · have hc : ∀ cc : Collab, fetch_url cc url il ii im el =
        { url := url, error := some "URL is required", content := some "",
          metadata := some [], links := none, link_count := none } := by
      intro cc; simp [fetch_url, hu]
    rw [hc c, hc c2]
    exact ⟨rfl, Or.inl rfl, rfl, rfl⟩
  · rcases h with h | ⟨h1, h2⟩
    · exact absurd h hu
    · have hv : (pyStartsWith (pyStrip url) "http://" ||
          pyStartsWith (pyStrip url) "https://") = false := by rw [h1, h2]; rfl
      have hc : ∀ cc : Collab, fetch_url cc url il ii im el =
          errEnv (pyStrip url) "Invalid URL: must start with http:// or https://" := by
        intro cc; simp [fetch_url, hu, hv]
      rw [hc c, hc c2]
      exact ⟨rfl, Or.inr rfl, rfl, rfl⟩

/-- Witness for C3 at a concrete input, the spec scenario url. -/
theorem fetch_url_invalid_url_rejected_witness :
    (fetch_url (collabRaise "boom") "not-a-url" true false true false).error =
        some "URL is required" ∨
      (fetch_url (collabRaise "boom") "not-a-url" true false true false).error =
        some "Invalid URL: must start with http:// or https://" :=
  (fetch_url_invalid_url_rejected (collabRaise "boom") collabFetchNone "not-a-url"
    true false true false (Or.inr ⟨by decide, by decide⟩)).2.1

/-- C7: when the fetch collaborator returns no document for a valid URL,
the envelope carries exactly the fixed fetch-failure message, with empty
content and metadata, in either mode. -/
theorem fetch_url_fetch_returns_none_error (c : Collab) (url : String) (il ii im el : Bool)
    (h1 : url ≠ "")
    (h2 : (pyStartsWith (pyStrip url) "http://" ||
      pyStartsWith (pyStrip url) "https://") = true)
    (h3 : c.fetch (pyStrip url) = .ok none) :
    (fetch_url c url il ii im el).error =
        some "Failed to fetch URL: page not accessible or returned empty content" ∧
      (fetch_url c url il ii im el).content = some "" ∧
      (fetch_url c url il ii im el).metadata = some [] := by
  have hc : fetch_url c url il ii im el = errEnv (pyStrip url)
      "Failed to fetch URL: page not accessible or returned empty content" := by
    simp [fetch_url, h1, h2, h3]
  rw [hc]
  exact ⟨rfl, rfl, rfl⟩

/-- Witness for C7 at a concrete input. -/
theorem fetch_url_fetch_returns_none_error_witness :
    (fetch_url collabFetchNone "http://x" true false true false).error =
      some "Failed to fetch URL: page not accessible or returned empty content" :=
  (fetch_url_fetch_returns_none_error collabFetchNone "http://x" true false true false
    (by decide) (by decide) rfl).1

/-- C10: a non-empty, all-whitespace url passes the pre-trim emptiness
check, is trimmed to the empty string, and is then rejected as invalid
(not as missing); the envelope echoes the trimmed url. -/
theorem fetch_url_whitespace_only_url (c : Collab) (url : String) (il ii im el : Bool)
    (h1 : url ≠ "") (h2 : ∀ ch ∈ url.data, ch.isWhitespace = true) :
    (fetch_url c url il ii im el).error =
        some "Invalid URL: must start with http:// or https://" ∧
      (fetch_url c url il ii im el).url = pyStrip url := by
  have hs : pyStrip url = "" := pyStrip_of_all_whitespace url h2
  have hv : (pyStartsWith (pyStrip url) "http://" ||
      pyStartsWith (pyStrip url) "https://") = false := by rw [hs]; decide
  have hc : fetch_url c url il ii im el =
      errEnv (pyStrip url) "Invalid URL: must start with http:// or https://" := by
    simp [fetch_url, h1, hv]
  rw [hc]
  exact ⟨rfl, rfl⟩

/-- Witness for C10 at a concrete input: three spaces. -/
theorem fetch_url_whitespace_only_url_witness :
    (fetch_url collabFetchNone "   " true false true false).error =
        some "Invalid URL: must start with http:// or https://" ∧
      (fetch_url collabFetchNone "   " true false true false).url = pyStrip "   " :=
  fetch_url_whitespace_only_url collabFetchNone "   " true false true false
    (by decide) (by decide)

/-- C5: the link-extraction loop deduplicates by resolved absolute URL,
keeping the first occurrence and its anchor text, in order of first
appearance: it equals the spec-level first-occurrence deduplication
`dedupByUrl` of the kept, resolved anchors, and the resulting URLs are
pairwise distinct (exactly one entry per resolved URL). -/
theorem extractLinks_dedup_first_occurrence (j : String → String) (as : List Anchor) :
    extractLinksPy j as = dedupByUrl (resolvedKept j as) ∧
      ((extractLinksPy j as).map Link.url).Nodup := by
  refine ⟨extractLinksPy_eq_dedup j as, ?_⟩
  rw [extractLinksPy_eq_dedup]
  exact dedupByUrl_nodup _

/-- C6: anchors whose trimmed href is empty or starts with one of the
excluded prefixes never contribute to the link list: dropping them
beforehand does not change the result, and every emitted link originates
from an anchor that passes the skip test. -/
theorem extractLinks_excluded_hrefs_never_appear (j : String → String) (as : List Anchor) :
    extractLinksPy j as =
        extractLinksPy j (as.filter (fun a => !skipHref (pyStrip a.href))) ∧
      ∀ l ∈ extractLinksPy j as, ∃ a, a ∈ as ∧ skipHref (pyStrip a.href) = false ∧
        l.url = j (pyStrip a.href) ∧ l.text = pyStrip a.text := by
  constructor
  · rw [extractLinksPy_eq_dedup, extractLinksPy_eq_dedup]
    congr 1
    unfold resolvedKept
    rw [List.filter_filter]
    congr 1
    apply List.filter_congr
    intro a ha
    exact (Bool.and_self _).symm
  · intro l hl
    rw [extractLinksPy_eq_dedup] at hl
    have hsub := dedupByUrl_subset _ l hl
    unfold resolvedKept at hsub
    rcases List.mem_map.mp hsub with ⟨a, haf, hfa⟩
    rcases List.mem_filter.mp haf with ⟨ha, hpa⟩
    refine ⟨a, ha, ?_, ?_, ?_⟩
    · simpa using hpa
    · rw [← hfa]
    · rw [← hfa]

/-- C8: every successful content-mode envelope has null error, non-empty
content, and content free of runs of three or more newlines; the content
is exactly the collaborator's output with every such run collapsed to
two newlines (`collapseNewlines`). -/
theorem fetch_url_content_success_collapsed (c : Collab) (url : String) (il ii im : Bool)
    (h : (fetch_url c url il ii im false).error = none) :
    ∃ s, (fetch_url c url il ii im false).content = some s ∧ s ≠ "" ∧
      hasTripleNewline s.data = false ∧
      ∃ d raw, c.fetch (pyStrip url) = .ok (some d) ∧
        c.extract d (extractOpts il ii (pyStrip url)) = .ok (some raw) ∧
        s = collapseNewlines raw := by
  rcases fetch_url_shape c url il ii im false with
    ⟨hu, he⟩ | ⟨msg, he⟩ | ⟨hel, d, anchors, hf, hpa, he⟩ |
    ⟨hel, d, raw, md, hf, hex, hraw, he⟩
  · rw [he] at h; simp at h
  · rw [he] at h; simp [errEnv] at h
  · exact absurd hel (by decide)
  · refine ⟨collapseNewlines raw, ?_, ?_, ?_, d, raw, hf, hex, rfl⟩
    · rw [he]
    · exact collapseNewlines_ne_empty raw hraw
    · exact hasTripleNewline_collapseNewlines raw

/-- Witness for C8 at a concrete input: an extraction containing a run
of four newlines. -/
theorem fetch_url_content_success_collapsed_witness :
    ∃ s, (fetch_url collabPage "http://x" true false true false).content = some s ∧ s ≠ "" ∧
      hasTripleNewline s.data = false ∧
      ∃ d raw, collabPage.fetch (pyStrip "http://x") = .ok (some d) ∧
        collabPage.extract d (extractOpts true false (pyStrip "http://x")) = .ok (some raw) ∧
        s = collapseNewlines raw :=
  fetch_url_content_success_collapsed collabPage "http://x" true false true (by decide)

/-- C4 counterexample: extract_links=true on a valid URL whose document
is fetched successfully, but whose anchor parse raises (as lxml does on
an empty document): the envelope then has no links array, a non-null
error and a content key, refuting the claim as stated. -/
theorem fetch_url_links_mode_counterexample :
    collabParseRaise.fetch (pyStrip "http://x") = .ok (some " ") ∧
      (fetch_url collabParseRaise "http://x" true false true true).links = none ∧
      (fetch_url collabParseRaise "http://x" true false true true).link_count = none ∧
      (fetch_url collabParseRaise "http://x" true false true true).error ≠ none ∧
      (fetch_url collabParseRaise "http://x" true false true true).content = some "" := by
  decide

/-- C4 (amended): with extract_links=true on a valid URL whose document
is fetched successfully and whose anchor parse raises no exception, the
envelope carries the links array and a link_count equal to its length,
null error, and no content key. -/
theorem fetch_url_links_mode_success (c : Collab) (url d : String) (anchors : List Anchor)
    (il ii im : Bool)
    (h1 : url ≠ "")
    (h2 : (pyStartsWith (pyStrip url) "http://" ||
      pyStartsWith (pyStrip url) "https://") = true)
    (h3 : c.fetch (pyStrip url) = .ok (some d))
    (h4 : c.parseAnchors d = .ok anchors) :
    (fetch_url c url il ii im true).links =
        some (extractLinksPy (c.urljoin (pyStrip url)) anchors) ∧
      (fetch_url c url il ii im true).link_count =
        some (extractLinksPy (c.urljoin (pyStrip url)) anchors).length ∧
      (fetch_url c url il ii im true).error = none ∧
      (fetch_url c url il ii im true).content = none := by
  have hc : fetch_url c url il ii im true =
      { url := pyStrip url,
        links := some (extractLinksPy (c.urljoin (pyStrip url)) anchors),
        link_count := some (extractLinksPy (c.urljoin (pyStrip url)) anchors).length,
        error := none, content := none, metadata := none } := by
    simp [fetch_url, h1, h2, h3, linksBranch, h4]
  rw [hc]
  exact ⟨rfl, rfl, rfl, rfl⟩

/-- Witness for the amended C4 at a concrete two-anchor page. -/
theorem fetch_url_links_mode_success_witness :
    (fetch_url collabPage "http://x" true false true true).links =
        some (extractLinksPy (collabPage.urljoin (pyStrip "http://x"))
          [{ href := "a.html", text := "First" }, { href := "b.html", text := "" }]) ∧
      (fetch_url collabPage "http://x" true false true true).link_count =
        some (extractLinksPy (collabPage.urljoin (pyStrip "http://x"))
          [{ href := "a.html", text := "First" }, { href := "b.html", text := "" }]).length ∧
      (fetch_url collabPage "http://x" true false true true).error = none ∧
      (fetch_url collabPage "http://x" true false true true).content = none :=
  fetch_url_links_mode_success collabPage "http://x" "<html>page</html>"
    [{ href := "a.html", text := "First" }, { href := "b.html", text := "" }]
    true false true (by decide) (by decide) rfl rfl

/-- C9 counterexample: a raised message that contains "404" but also
matches the earlier connection test is rewritten to the connection
template, not the 404 one, refuting the claim as stated. -/
theorem fetch_url_404_counterexample :
    pyContains "connection reset by peer after 404" "404" = true ∧
      (fetch_url (collabRaise "connection reset by peer after 404") "http://x"
        true false true false).error =
        some "Connection error: unable to reach http://x" ∧
      (fetch_url (collabRaise "connection reset by peer after 404") "http://x"
        true false true false).error ≠
        some "Page not found (404) at http://x" := by
  decide

/-- C9 (amended): an exception raised by any collaborator call of the
try block whose message contains "404" and matches none of the
earlier-tested categories (no "ConnectionError" or case-insensitive
"connection", no "Timeout" or "timeout", no "SSL" or "certificate") is
rewritten to exactly "Page not found (404) at <url>". -/
theorem fetch_url_404_rewritten (c : Collab) (url m : String) (il ii im el : Bool)
    (h1 : url ≠ "")
    (h2 : (pyStartsWith (pyStrip url) "http://" ||
      pyStartsWith (pyStrip url) "https://") = true)
    (hr : raisesWith c (pyStrip url) il ii im el m)
    (h404 : pyContains m "404" = true)
    (hc1 : pyContains m "ConnectionError" = false)
    (hc2 : pyContains (pyLower m) "connection" = false)
    (ht1 : pyContains m "Timeout" = false)
    (ht2 : pyContains (pyLower m) "timeout" = false)
    (hs1 : pyContains m "SSL" = false)
    (hs2 : pyContains (pyLower m) "certificate" = false) :
    (fetch_url c url il ii im el).error =
      some ("Page not found (404) at " ++ pyStrip url) := by
  have hcl : classifyExn (pyStrip url) m = "Page not found (404) at " ++ pyStrip url := by
    simp [classifyExn, h404, hc1, hc2, ht1, ht2, hs1, hs2]
  rcases hr with hf | ⟨d, hf, hel, hpa⟩ | ⟨d, hf, hel, hex⟩ |
    ⟨d, raw, hf, hel, hex, hraw, him, hmeta⟩
  · have he : fetch_url c url il ii im el =
        errEnv (pyStrip url) (classifyExn (pyStrip url) m) := by
      simp [fetch_url, h1, h2, hf]
    rw [he, hcl]; rfl
  · subst hel
    have he : fetch_url c url il ii im true =
        errEnv (pyStrip url) (classifyExn (pyStrip url) m) := by
      simp [fetch_url, h1, h2, hf, linksBranch, hpa]
    rw [he, hcl]; rfl
  · subst hel
    have he : fetch_url c url il ii im false =
        errEnv (pyStrip url) (classifyExn (pyStrip url) m) := by
      simp [fetch_url, h1, h2, hf, contentBranch, hex]
    rw [he, hcl]; rfl
  · subst hel
    subst him
    have he : fetch_url c url il ii true false =
        errEnv (pyStrip url) (classifyExn (pyStrip url) m) := by
      simp [fetch_url, h1, h2, hf, contentBranch, hex, hraw, hmeta]
    rw [he, hcl]; rfl

/-- Witness for the amended C9 at a concrete raising fetch. -/
theorem fetch_url_404_rewritten_witness :
    (fetch_url (collabRaise "HTTP Error 404: Not Found") "http://x"
      true false true false).error =
      some ("Page not found (404) at " ++ pyStrip "http://x") :=
  fetch_url_404_rewritten (collabRaise "HTTP Error 404: Not Found") "http://x"
    "HTTP Error 404: Not Found" true false true false
    (by decide) (by decide) (Or.inl rfl) (by decide) (by decide) (by decide)
    (by decide) (by decide) (by decide) (by decide)

/-- C1 (spec-modelled, merged tool definition): every successful
content-mode envelope of `web_fetch` ends with the `## Page Links`
section built from the extracted links — one `- [text-or-url](url)`
bullet per link, the text falling back to the URL when empty
(`pageLinksSection`, `linkBullet`) — appended to the collapsed extracted
content. -/
theorem web_fetch_content_ends_with_page_links (c : Collab) (url : String) (il ii im : Bool)
    (h : (web_fetch c url il ii im false).error = none) :
    ∃ d raw anchors, c.fetch (pyStrip url) = .ok (some d) ∧
      c.extract d (extractOpts il ii (pyStrip url)) = .ok (some raw) ∧ pyStrip raw ≠ "" ∧
      c.parseAnchors d = .ok anchors ∧
      (web_fetch c url il ii im false).content =
        some (collapseNewlines raw ++
          pageLinksSection (extractLinksPy (c.urljoin (pyStrip url)) anchors)) := by
  rcases web_fetch_content_shape c url il ii im with
    hne | ⟨d, raw, anchors, md, hf, hex, hraw, hpa, he⟩
  · exact absurd h hne
  · exact ⟨d, raw, anchors, hf, hex, hraw, hpa, by rw [he]⟩

/-- Witness for C1 at the concrete two-anchor page of the spec
scenario. -/
theorem web_fetch_content_ends_with_page_links_witness :
    ∃ d raw anchors, collabPage.fetch (pyStrip "http://x") = .ok (some d) ∧
      collabPage.extract d (extractOpts true false (pyStrip "http://x")) = .ok (some raw) ∧
      pyStrip raw ≠ "" ∧ collabPage.parseAnchors d = .ok anchors ∧
      (web_fetch collabPage "http://x" true false true false).content =
        some (collapseNewlines raw ++
          pageLinksSection (extractLinksPy (collabPage.urljoin (pyStrip "http://x")) anchors)) :=
  web_fetch_content_ends_with_page_links collabPage "http://x" true false true (by decide)
